import Mathlib

/-! Verification of the needpedia-greeter chat widget
(`src/app/components/weather-widget.tsx`, Chat component).

The TypeScript source is shallowly embedded: each React handler becomes a
pure Lean function on an explicit state, localStorage writes become
explicit fields of the state, network calls become `Option`-valued
parameters (`none` = network error / non-ok response), and the wall clock
becomes an explicit `now : String` argument (JS `new Date().toISOString()`).
-/

namespace Needpedia

/-- Message roles, from `type MessageRole = "user" | "assistant" | "code"`. -/
inductive MessageRole where
  | user
  | assistant
  | code
deriving DecidableEq, Repr

/-- A chat message: `{ role, text, optional isHTML flag }`.  The `isHTML`
flag is only ever set on the canned upsell message in `handleSubmit`;
everywhere else it defaults to `false` (absent in JS). -/
structure Message where
  role : MessageRole
  text : String
  isHTML : Bool := false
deriving DecidableEq, Repr

/-- A conversation thread, from `type Thread`. -/
structure Thread where
  id : String
  title : String
  lastMessage : String
  lastUpdated : String
  messages : List Message
deriving DecidableEq, Repr

/-! Thread Synchronizer: `fetchThreadsFromBackend` / `syncThreadWithBackend`.

The locally cached thread-id list (localStorage key `cached_thread_ids`,
read by `getThreadsFromLocalStorage` and written by
`saveThreadsToLocalStorage`) is passed around explicitly as
`cache : List String`.  The backend registry response is
`backend : Option (List String)`: `some ts` models a successful
`GET /api/v1/chat_threads` returning `{threads: ts}`, `none` models a
network error or a non-ok response (both end in the `catch` block). -/

/-- Result of `fetchThreadsFromBackend`: the returned thread-id list and
the local cache after the call. -/
structure FetchResult where
  threads : List String
  cache : List String
deriving DecidableEq, Repr

/-- Embeds `fetchThreadsFromBackend` (lines 103-125): on success it calls
`saveThreadsToLocalStorage(data.threads)` and returns the data; on any
failure the `catch` returns `{threads: []}` without touching the cache. -/
def fetchThreadsFromBackend (backend : Option (List String))
    (cache : List String) : FetchResult :=
  match backend with
  | some ts => { threads := ts, cache := ts }
  | none => { threads := [], cache := cache }

/-- Result of `syncThreadWithBackend`: whether a registration POST was
issued, and the local cache afterwards. -/
structure SyncResult where
  posted : Bool
  cache : List String
deriving DecidableEq, Repr

/-- Embeds `syncThreadWithBackend` (lines 127-175).  `postOk` models whether the
registration `POST /api/v1/chat_threads` would succeed (`response.ok`).
Note the source appends the thread id to the cache snapshot
`cachedThreads` taken before the backend fetch, and on a failed POST the
`catch` swallows the error after `fetchThreadsFromBackend` already saved
the backend list. -/
def syncThreadWithBackend (backend : Option (List String)) (postOk : Bool)
    (threadId : String) (cache : List String) : SyncResult :=
  if cache.contains threadId then
    { posted := false, cache := cache }
  else
    let fr := fetchThreadsFromBackend backend cache
    if fr.threads.contains threadId then
      { posted := false, cache := fr.cache }
    else if postOk then
      { posted := true, cache := cache ++ [threadId] }
    else
      { posted := true, cache := fr.cache }

/-! Token Meter gate: `handleSubmit` (lines 623-677). -/

/-- JS `String.prototype.trim`, written structurally over the character
list so that concrete instances reduce in the kernel. -/
def trimJS (s : String) : String :=
  String.mk (((s.data.dropWhile Char.isWhitespace).reverse.dropWhile
    Char.isWhitespace).reverse)

/-- The canned upsell message text of `handleSubmit` (line 661), verbatim. -/
def upsellText : String :=
  "Needpedia Staff: Welcome! This AI is only designed to greet people and answer a few questions. To access our more powerful AI, which has more tokens and can even make posts for you, simply create an account (which is totally free). If you like what you see, feel free to contribute through Patreon [here](https://www.patreon.com/Needpedia)."

/-- Observable outcome of one `handleSubmit` call. `sentText` is the text
passed to `sendMessage` when it is invoked; `quotaChecked` records whether
the `POST /api/v1/tokens` quota request was issued; `tokensSet` is the
value passed to `setTokens`; `alerted` records the `alert(...)` in the
`catch` branch. -/
structure SubmitResult where
  sentText : Option String
  messages : List Message
  userInput : String
  quotaChecked : Bool
  tokensSet : Option Int
  alerted : Bool
deriving DecidableEq, Repr

/-- Embeds `handleSubmit`: empty/whitespace-only input returns before the quota
request; otherwise the quota endpoint is consulted (`quota = none` models
a fetch/parse failure reaching the `catch`), and `data.tokens > 0` decides
between sending and appending the canned upsell message. -/
def handleSubmit (quota : Option Int) (userInput : String)
    (messages : List Message) : SubmitResult :=
  if trimJS userInput = "" then
    { sentText := none, messages := messages, userInput := userInput,
      quotaChecked := false, tokensSet := none, alerted := false }
  else
    match quota with
    | none =>
      { sentText := none, messages := messages, userInput := userInput,
        quotaChecked := true, tokensSet := none, alerted := true }
    | some k =>
      if k > 0 then
        { sentText := some userInput,
          messages := messages ++ [{ role := .user, text := userInput }],
          userInput := "", quotaChecked := true, tokensSet := some k,
          alerted := false }
      else
        { sentText := none,
          messages := messages ++
            [{ role := .assistant, text := upsellText, isHTML := true }],
          userInput := userInput, quotaChecked := true, tokensSet := some k,
          alerted := false }

/-! Chat View state and the Stream Reconciler.

`ChatState` carries the React state the claims are about plus the
localStorage mirrors written by the persistence `useEffect`s:
`persistedMessages` mirrors the `current_thread_messages_<token>` key
(effect on `[currentThreadId, userToken, messages]`, lines 394-400, guarded
by `currentThreadId && userToken`), `persistedThreads` mirrors the
`chat_threads_<token>` key (effect on `[threads, userToken]`, lines
408-415, guarded by `threads.length > 0 && userToken`). -/
structure ChatState where
  messages : List Message
  threads : List Thread
  currentThreadId : String
  userToken : String
  persistedMessages : List Message
  persistedThreads : List Thread
deriving DecidableEq, Repr

/-- Embeds `setMessages`, together with the persistence effect on `messages`. -/
def setMessagesS (m : List Message) (s : ChatState) : ChatState :=
  let s1 : ChatState := { s with messages := m }
  if s1.currentThreadId ≠ "" ∧ s1.userToken ≠ "" then
    { s1 with persistedMessages := m }
  else
    s1

/-- Embeds `setThreads`, together with the persistence effect on `threads`. -/
def setThreadsS (ts : List Thread) (s : ChatState) : ChatState :=
  let s1 : ChatState := { s with threads := ts }
  if ts.length > 0 ∧ s1.userToken ≠ "" then
    { s1 with persistedThreads := ts }
  else
    s1

/-- Embeds `updateThread` (lines 738-752), specialised to the one update shape
every caller uses: `{messages, lastMessage, lastUpdated}`.  The
`syncThreadWithBackend` fire-and-forget call it also makes touches only
the backend/cache, not this state. -/
def updateThread (threadId : String) (msgs : List Message)
    (lastMsg lastUpd : String) (s : ChatState) : ChatState :=
  setThreadsS
    (s.threads.map fun t =>
      if t.id == threadId then
        { t with
            messages := msgs
            lastMessage := lastMsg
            lastUpdated := lastUpd }
      else t)
    s

/-- Embeds `appendToLastMessage` (lines 754-771): rebuilds the list as
`prevMessages.slice(0,-1) ++ [updatedLastMessage]` and calls
`updateThread(currentThreadId, {messages, lastMessage, lastUpdated})`.
On an empty message list the JS would throw reading `lastMessage.text`;
the claims only use it on non-empty lists, where we return the state
unchanged. -/
def appendToLastMessageS (text now : String) (s : ChatState) : ChatState :=
  match s.messages.getLast? with
  | none => s
  | some last =>
    let updated : Message := { last with text := last.text ++ text }
    let newMessages := s.messages.dropLast ++ [updated]
    setMessagesS newMessages
      (updateThread s.currentThreadId newMessages updated.text now s)

/-- Embeds `appendMessage` (lines 773-785). -/
def appendMessageS (role : MessageRole) (text now : String)
    (s : ChatState) : ChatState :=
  let newMessages := s.messages ++ [{ role := role, text := text }]
  setMessagesS newMessages
    (updateThread s.currentThreadId newMessages text now s)

/-- A text-delta annotation as used by `annotateLastMessage`: only the
`type`, the annotated `text` and `file_path.file_id` are read. -/
structure Annot where
  type : String
  text : String
  fileId : String
deriving DecidableEq, Repr

/-- JS `String.prototype.replaceAll`, by structural recursion on a fuel
bound (the remaining suffix length).  The JS empty-pattern behaviour
(interleaving) is not modelled; no caller in the claims uses an empty
annotation text. -/
def replaceAllAux (pat rep : List Char) : Nat → List Char → List Char
  | 0, s => s
  | _ + 1, [] => []
  | fuel + 1, c :: rest =>
    if pat ≠ [] ∧ pat.isPrefixOf (c :: rest) then
      rep ++ replaceAllAux pat rep fuel ((c :: rest).drop pat.length)
    else
      c :: replaceAllAux pat rep fuel rest

/-- JS `s.replaceAll(pat, rep)`. -/
def replaceAll (s pat rep : String) : String :=
  String.mk (replaceAllAux pat.data rep.data s.data.length s.data)

/-- One step of the `annotations.forEach` loop in `annotateLastMessage`:
a `file_path` annotation replaces every occurrence of its text with a
file-serving URL; other kinds are ignored. -/
def applyAnnot (text : String) (a : Annot) : String :=
  if a.type == "file_path" then
    replaceAll text a.text ("/api/files/" ++ a.fileId)
  else
    text

/-- Embeds `annotateLastMessage` (lines 787-803): rewrites the last message's
text through the annotations and calls only `setMessages` — unlike the
append operations it does NOT call `updateThread`. -/
def annotateLastMessageS (annots : List Annot) (s : ChatState) : ChatState :=
  match s.messages.getLast? with
  | none => s
  | some last =>
    let updated : Message := { last with text := annots.foldl applyAnnot last.text }
    setMessagesS (s.messages.dropLast ++ [updated]) s

/-- A `text-delta` stream event: `delta.value` and `delta.annotations`,
either of which may be absent. -/
structure TextDelta where
  value : Option String
  annots : Option (List Annot)
deriving DecidableEq, Repr

/-- Embeds `handleTextDelta` (lines 683-690): append the value when non-null,
then apply the annotations when non-null. -/
def handleTextDeltaS (d : TextDelta) (now : String) (s : ChatState) : ChatState :=
  let s1 :=
    match d.value with
    | some v => appendToLastMessageS v now s
    | none => s
  match d.annots with
  | some a => annotateLastMessageS a s1
  | none => s1

/-- Fold a sequence of `text-delta` events (no intervening `text-created`)
over the state, in arrival order. -/
def processTextDeltas (ds : List TextDelta) (now : String) (s : ChatState) :
    ChatState :=
  ds.foldl (fun acc d => handleTextDeltaS d now acc) s

/-- The display text of the last message, the quantity C1 speaks about. -/
def lastText (s : ChatState) : Option String :=
  s.messages.getLast?.map Message.text

/-- Concatenation of the delta values of a sequence in arrival order, a
null value contributing nothing (it is skipped by `handleTextDelta`). -/
def deltaConcat : List TextDelta → String
  | [] => ""
  | d :: ds => d.value.getD "" ++ deltaConcat ds

/-- A `tool-call-delta` event as read by `toolCallDelta`: its `type` and
`code_interpreter?.input` (`none` models a missing `code_interpreter`
object or a missing `input` field). -/
structure ToolCallDelta where
  type : String
  input : Option String
deriving DecidableEq, Repr

/-- Embeds `toolCallDelta` (lines 701-705): returns early unless the kind is
`code_interpreter` and `delta.code_interpreter?.input` is truthy (so a
present-but-empty input string is also ignored). -/
def toolCallDeltaS (d : ToolCallDelta) (now : String) (s : ChatState) :
    ChatState :=
  if d.type ≠ "code_interpreter" then s
  else
    match d.input with
    | none => s
    | some inp => if inp = "" then s else appendToLastMessageS inp now s

/-- Embeds `switchThread` (lines 478-500): look the thread up in state; when
found, select it and display its stored messages (persisting both); when
absent, log and change nothing. -/
def switchThread (threadId : String) (s : ChatState) : ChatState :=
  match s.threads.find? (fun t => t.id == threadId) with
  | some t => setMessagesS t.messages { s with currentThreadId := threadId }
  | none => s

/-! Requires-action handling: `handleRequiresAction` (lines 706-719) and
`submitActionResult` (lines 594-621).  The handler's externally visible
behaviour is recorded as an ordered trace of side effects: each
`functionCallHandler(toolCall)` invocation, the `setInputDisabled` call,
and the submission of the collected outputs to
`POST /api/assistants/threads/id/actions`. -/

/-- A tool call from a `requires-action` batch; only `id` is read by the
handler besides being passed through to `functionCallHandler`, whose
input is summarised by the opaque `payload`. -/
structure ToolCall where
  id : String
  payload : String
deriving DecidableEq, Repr

/-- One collected `{output, tool_call_id}` pair. -/
structure ToolOutput where
  output : String
  tool_call_id : String
deriving DecidableEq, Repr

/-- An externally visible side effect of the requires-action path. -/
inductive SideEffect where
  | handlerCall (tc : ToolCall)
  | inputDisabledSet (b : Bool)
  | actionSubmit (runId : String) (outputs : List ToolOutput)
deriving DecidableEq, Repr

/-- The tool call a trace entry invokes the external handler on, if any. -/
def SideEffect.handlerTarget : SideEffect → Option ToolCall
  | .handlerCall tc => some tc
  | _ => none

/-- Whether a trace entry submits action results. -/
def SideEffect.isSubmit : SideEffect → Bool
  | .actionSubmit _ _ => true
  | _ => false

/-- Models the `Promise.all(toolCalls.map(...))` of `handleRequiresAction`:
one handler invocation per tool call, collecting `{output, tool_call_id}`
pairs (`handler` models the awaited `functionCallHandler`). -/
def runToolCalls (handler : ToolCall → String) :
    List ToolCall → List SideEffect × List ToolOutput
  | [] => ([], [])
  | tc :: rest =>
    let r := runToolCalls handler rest
    (.handlerCall tc :: r.1,
      { output := handler tc, tool_call_id := tc.id } :: r.2)

/-- Embeds `handleRequiresAction`: await the whole batch of handler calls,
then `setInputDisabled(true)`, then `submitActionResult(runId, outputs)`. -/
def handleRequiresAction (handler : ToolCall → String) (runId : String)
    (toolCalls : List ToolCall) : List SideEffect :=
  let r := runToolCalls handler toolCalls
  r.1 ++ [.inputDisabledSet true, .actionSubmit runId r.2]

/-! Stream transform of `sendMessage` (lines 524-552). -/

/-- The fields of a parsed stream chunk that the transform inspects:
`data.event`, `data.data?.type` and `data.data.usage?.completion_tokens`. -/
structure ParsedChunk where
  event : String
  dataType : Option String
  completionTokens : Option Nat
deriving DecidableEq, Repr

/-- Embeds the `TransformStream.transform` callback of `sendMessage`.
`parse` models `JSON.parse` over the decoded chunk (`none` = it threw, so
control reaches the `catch`); `tokensGlobal` models the transient
`(window as any).completionTokens`.  Returns the chunks enqueued
downstream and the new global.  The `if (usage?.completion_tokens)`
truthiness test skips a zero count. -/
def transformChunk (parse : String → Option ParsedChunk) (chunk : String)
    (tokensGlobal : Option Nat) : List String × Option Nat :=
  match parse chunk with
  | none => ([chunk], tokensGlobal)
  | some p =>
    let g :=
      if p.event == "thread.run.step.completed" ∧
          p.dataType == some "message_creation" then
        match p.completionTokens with
        | some n => if n ≠ 0 then some n else tokensGlobal
        | none => tokensGlobal
      else
        tokensGlobal
    ([chunk], g)

/-! Concrete inputs used by the witnesses and counterexamples. -/

/-- A sample chat state: one thread, currently selected, in sync. -/
def sampleThread : Thread :=
  { id := "t1", title := "T", lastMessage := "abc", lastUpdated := "D0",
    messages := [{ role := .assistant, text := "abc" }] }

/-- A second sample thread, for the thread-switching witness. -/
def sampleThread2 : Thread :=
  { id := "t2", title := "U", lastMessage := "xy", lastUpdated := "D1",
    messages := [{ role := .user, text := "xy" }] }

/-- The sample state displaying `sampleThread`. -/
def sampleState : ChatState :=
  { messages := [{ role := .assistant, text := "abc" }],
    threads := [sampleThread, sampleThread2],
    currentThreadId := "t1", userToken := "u",
    persistedMessages := [{ role := .assistant, text := "abc" }],
    persistedThreads := [sampleThread, sampleThread2] }

/-- A `file_path` annotation whose text occurs in the last message of
`sampleState`, so applying it rewrites that message. -/
def sampleAnnot : Annot :=
  { type := "file_path", text := "abc", fileId := "F1" }

/-- A `text-delta` carrying both a value and a `file_path` annotation that
matches the value just appended. -/
def annotatedDelta : TextDelta :=
  { value := some "abc", annots := some [sampleAnnot] }

/-- A minimal state for the C1 counterexample: one empty assistant
message, as right after `text-created`. -/
def cexState : ChatState :=
  { messages := [{ role := .assistant, text := "" }], threads := [],
    currentThreadId := "t1", userToken := "u",
    persistedMessages := [], persistedThreads := [] }

/-- Two annotation-free text deltas (the second with a null value), for
the C1 witness. -/
def plainDeltas : List TextDelta :=
  [{ value := some "Hel", annots := none },
    { value := none, annots := none },
    { value := some "lo", annots := none }]

end Needpedia

namespace Needpedia

/-- Claim C2: with local cache {A,B} and backend registry {A,B,C},
synchronizing thread C issues no registration POST and leaves the local
cache containing C (the backend fetch saved {A,B,C} locally), whatever a
POST would have returned. -/
theorem syncThreadWithBackend_known_remote :
    ∀ postOk : Bool,
      (syncThreadWithBackend (some ["A", "B", "C"]) postOk "C"
        ["A", "B"]).posted = false ∧
      (syncThreadWithBackend (some ["A", "B", "C"]) postOk "C"
        ["A", "B"]).cache.contains "C" = true := by
  decide

/-- Claim C10: a failed backend fetch returns `{threads: []}` and leaves
the cached thread-id list unchanged; the cache is overwritten (with the
response body) only on a successful response. -/
theorem fetchThreadsFromBackend_failure_keeps_cache :
    ∀ cache : List String,
      (fetchThreadsFromBackend none cache).threads = [] ∧
      (fetchThreadsFromBackend none cache).cache = cache ∧
      ∀ ts : List String, (fetchThreadsFromBackend (some ts) cache).cache = ts := by
  intro cache
  exact ⟨rfl, rfl, fun _ => rfl⟩

/-- Claim C3: submitting a non-empty input when the quota endpoint reports
0 tokens appends exactly one assistant message carrying the fixed upsell
text and does not invoke `sendMessage`. -/
theorem handleSubmit_quota_zero_upsell (input : String) (messages : List Message)
    (h : trimJS input ≠ "") :
    (handleSubmit (some 0) input messages).messages =
      messages ++ [{ role := .assistant, text := upsellText, isHTML := true }] ∧
    (handleSubmit (some 0) input messages).sentText = none := by
  simp [handleSubmit, h]

/-- Witness for C3 at the concrete input "hi" on an empty message list. -/
theorem handleSubmit_quota_zero_upsell_witness :
    (handleSubmit (some 0) "hi" []).messages =
      [] ++ [{ role := .assistant, text := upsellText, isHTML := true }] ∧
    (handleSubmit (some 0) "hi" []).sentText = none :=
  handleSubmit_quota_zero_upsell "hi" [] (by decide)

/-- Claim C9: submitting empty or whitespace-only input is a no-op: no
quota request, nothing sent, messages and input state unchanged. -/
theorem handleSubmit_blank_input_noop (quota : Option Int) (input : String)
    (messages : List Message) (h : trimJS input = "") :
    handleSubmit quota input messages =
      { sentText := none, messages := messages, userInput := input,
        quotaChecked := false, tokensSet := none, alerted := false } := by
  simp [handleSubmit, h]

/-- Witness for C9 at the concrete whitespace-only input. -/
theorem handleSubmit_blank_input_noop_witness :
    handleSubmit (some 5) "  \n " [] =
      { sentText := none, messages := [], userInput := "  \n ",
        quotaChecked := false, tokensSet := none, alerted := false } :=
  handleSubmit_blank_input_noop (some 5) "  \n " [] (by decide)

/-! Projection lemmas for the state-setter embeddings. -/

theorem setMessagesS_messages (m : List Message) (s : ChatState) :
    (setMessagesS m s).messages = m := by
  simp only [setMessagesS]
  split <;> rfl

theorem setMessagesS_threads (m : List Message) (s : ChatState) :
    (setMessagesS m s).threads = s.threads := by
  simp only [setMessagesS]
  split <;> rfl

theorem setMessagesS_persistedThreads (m : List Message) (s : ChatState) :
    (setMessagesS m s).persistedThreads = s.persistedThreads := by
  simp only [setMessagesS]
  split <;> rfl

theorem setMessagesS_currentThreadId (m : List Message) (s : ChatState) :
    (setMessagesS m s).currentThreadId = s.currentThreadId := by
  simp only [setMessagesS]
  split <;> rfl

theorem setMessagesS_userToken (m : List Message) (s : ChatState) :
    (setMessagesS m s).userToken = s.userToken := by
  simp only [setMessagesS]
  split <;> rfl

theorem setMessagesS_persistedMessages (m : List Message) (s : ChatState)
    (h1 : s.currentThreadId ≠ "") (h2 : s.userToken ≠ "") :
    (setMessagesS m s).persistedMessages = m := by
  simp only [setMessagesS]
  rw [if_pos ⟨h1, h2⟩]

theorem setThreadsS_threads (ts : List Thread) (s : ChatState) :
    (setThreadsS ts s).threads = ts := by
  simp only [setThreadsS]
  split <;> rfl

theorem setThreadsS_messages (ts : List Thread) (s : ChatState) :
    (setThreadsS ts s).messages = s.messages := by
  simp only [setThreadsS]
  split <;> rfl

theorem setThreadsS_persistedMessages (ts : List Thread) (s : ChatState) :
    (setThreadsS ts s).persistedMessages = s.persistedMessages := by
  simp only [setThreadsS]
  split <;> rfl

theorem setThreadsS_currentThreadId (ts : List Thread) (s : ChatState) :
    (setThreadsS ts s).currentThreadId = s.currentThreadId := by
  simp only [setThreadsS]
  split <;> rfl

theorem setThreadsS_userToken (ts : List Thread) (s : ChatState) :
    (setThreadsS ts s).userToken = s.userToken := by
  simp only [setThreadsS]
  split <;> rfl

theorem setThreadsS_persistedThreads (ts : List Thread) (s : ChatState)
    (h1 : 0 < ts.length) (h2 : s.userToken ≠ "") :
    (setThreadsS ts s).persistedThreads = ts := by
  simp only [setThreadsS]
  rw [if_pos ⟨h1, h2⟩]

theorem updateThread_messages (tid : String) (msgs : List Message)
    (lm lu : String) (s : ChatState) :
    (updateThread tid msgs lm lu s).messages = s.messages :=
  setThreadsS_messages _ _

theorem updateThread_threads (tid : String) (msgs : List Message)
    (lm lu : String) (s : ChatState) :
    (updateThread tid msgs lm lu s).threads =
      s.threads.map (fun t =>
        if t.id == tid then
          { t with messages := msgs, lastMessage := lm, lastUpdated := lu }
        else t) :=
  setThreadsS_threads _ _

theorem updateThread_currentThreadId (tid : String) (msgs : List Message)
    (lm lu : String) (s : ChatState) :
    (updateThread tid msgs lm lu s).currentThreadId = s.currentThreadId :=
  setThreadsS_currentThreadId _ _

theorem updateThread_userToken (tid : String) (msgs : List Message)
    (lm lu : String) (s : ChatState) :
    (updateThread tid msgs lm lu s).userToken = s.userToken :=
  setThreadsS_userToken _ _

theorem appendToLastMessageS_messages (v now : String) (s : ChatState)
    (last : Message) (hl : s.messages.getLast? = some last) :
    (appendToLastMessageS v now s).messages =
      s.messages.dropLast ++ [{ last with text := last.text ++ v }] := by
  unfold appendToLastMessageS
  rw [hl]
  exact setMessagesS_messages _ _

theorem lastText_appendToLastMessageS (v now : String) (s : ChatState)
    (hne : s.messages ≠ []) :
    lastText (appendToLastMessageS v now s) =
      (lastText s).map (fun t => t ++ v) ∧
    (appendToLastMessageS v now s).messages ≠ [] := by
  cases hl : s.messages.getLast? with
  | none => exact absurd (List.getLast?_eq_none_iff.mp hl) hne
  | some last =>
    constructor
    · rw [lastText, lastText, appendToLastMessageS_messages v now s last hl, hl]
      simp
    · rw [appendToLastMessageS_messages v now s last hl]
      simp

theorem handleTextDeltaS_noAnnots (d : TextDelta) (now : String)
    (s : ChatState) (hne : s.messages ≠ []) (ha : d.annots = none) :
    lastText (handleTextDeltaS d now s) =
      (lastText s).map (fun t => t ++ d.value.getD "") ∧
    (handleTextDeltaS d now s).messages ≠ [] := by
  cases hv : d.value with
  | none =>
    have hid : handleTextDeltaS d now s = s := by
      unfold handleTextDeltaS
      rw [hv, ha]
    rw [hid]
    refine ⟨?_, hne⟩
    cases lastText s <;> simp
  | some v =>
    have hap : handleTextDeltaS d now s = appendToLastMessageS v now s := by
      unfold handleTextDeltaS
      rw [hv, ha]
    rw [hap]
    simpa using lastText_appendToLastMessageS v now s hne

theorem processTextDeltas_noAnnots (ds : List TextDelta) (now : String) :
    ∀ s : ChatState, s.messages ≠ [] → (∀ d ∈ ds, d.annots = none) →
      lastText (processTextDeltas ds now s) =
        (lastText s).map (fun t => t ++ deltaConcat ds) ∧
      (processTextDeltas ds now s).messages ≠ [] := by
  induction ds with
  | nil =>
    intro s hne _
    refine ⟨?_, hne⟩
    show lastText s = (lastText s).map (fun t => t ++ deltaConcat [])
    cases lastText s <;> simp [deltaConcat]
  | cons d ds ih =>
    intro s hne hann
    have hstep := handleTextDeltaS_noAnnots d now s hne
      (hann d (List.mem_cons_self _ _))
    have hrest := ih (handleTextDeltaS d now s) hstep.2
      (fun e he => hann e (List.mem_cons_of_mem _ he))
    have hfold : processTextDeltas (d :: ds) now s =
        processTextDeltas ds now (handleTextDeltaS d now s) := rfl
    rw [hfold]
    refine ⟨?_, hrest.2⟩
    rw [hrest.1, hstep.1]
    cases lastText s <;> simp [deltaConcat, String.append_assoc]

end Needpedia

namespace Needpedia

/-- Claim C1 (amended): for every sequence of `text-delta` events with no
intervening `text-created` whose deltas carry no annotations, the text of
the last message after processing equals the text it had before
concatenated with all (non-null) delta values in arrival order.  (As
stated over all deltas the claim fails: a `file_path` annotation on a
delta rewrites the accumulated text, see the counterexample.) -/
theorem textDelta_concat (s : ChatState) (ds : List TextDelta) (now : String)
    (hne : s.messages ≠ []) (hann : ∀ d ∈ ds, d.annots = none) :
    lastText (processTextDeltas ds now s) =
      (lastText s).map (fun t => t ++ deltaConcat ds) :=
  (processTextDeltas_noAnnots ds now s hne hann).1

/-- Witness for C1 on three concrete deltas (one with a null value). -/
theorem textDelta_concat_witness :
    lastText (processTextDeltas plainDeltas "D2" cexState) =
      (lastText cexState).map (fun t => t ++ deltaConcat plainDeltas) :=
  textDelta_concat cexState plainDeltas "D2" (by decide) (by decide)

/-- Counterexample to C1 as stated: one `text-delta` whose value "abc"
arrives together with a `file_path` annotation for the text "abc"; the
final last-message text is "/api/files/F1", not the concatenation "abc". -/
theorem textDelta_concat_cex :
    lastText (processTextDeltas [annotatedDelta] "D2" cexState) ≠
      (lastText cexState).map (fun t => t ++ deltaConcat [annotatedDelta]) := by
  decide

/-! Supporting lemmas for the C4, C6 and C7 claims. -/

theorem updateThread_lastFields (tid : String) (msgs : List Message)
    (lm lu : String) (s : ChatState) :
    ∀ t ∈ (updateThread tid msgs lm lu s).threads,
      t.id = tid → t.lastMessage = lm ∧ t.lastUpdated = lu := by
  rw [updateThread_threads]
  intro t ht htid
  obtain ⟨u, _, rfl⟩ := List.mem_map.mp ht
  by_cases hbeq : u.id == tid
  · rw [if_pos hbeq]
    exact ⟨rfl, rfl⟩
  · rw [if_neg hbeq] at htid ⊢
    exact absurd htid (by simpa using hbeq)

theorem updateThread_persistedThreads (tid : String) (msgs : List Message)
    (lm lu : String) (s : ChatState) (hTh : s.threads ≠ [])
    (hTok : s.userToken ≠ "") :
    (updateThread tid msgs lm lu s).persistedThreads =
      (updateThread tid msgs lm lu s).threads := by
  rw [updateThread_threads]
  exact setThreadsS_persistedThreads _ _
    (by simpa [List.length_pos] using hTh) hTok

theorem appendMessageS_persistence (role : MessageRole) (txt now : String)
    (s : ChatState) (hCur : s.currentThreadId ≠ "") (hTok : s.userToken ≠ "")
    (hTh : s.threads ≠ []) :
    (∀ t ∈ (appendMessageS role txt now s).threads,
      t.id = s.currentThreadId → t.lastMessage = txt ∧ t.lastUpdated = now) ∧
    (appendMessageS role txt now s).persistedThreads =
      (appendMessageS role txt now s).threads ∧
    (appendMessageS role txt now s).persistedMessages =
      (appendMessageS role txt now s).messages := by
  unfold appendMessageS
  refine ⟨?_, ?_, ?_⟩
  · rw [setMessagesS_threads]
    exact updateThread_lastFields _ _ _ _ _
  · rw [setMessagesS_threads, setMessagesS_persistedThreads]
    exact updateThread_persistedThreads _ _ _ _ _ hTh hTok
  · rw [setMessagesS_messages, setMessagesS_persistedMessages]
    · rw [updateThread_currentThreadId]
      exact hCur
    · rw [updateThread_userToken]
      exact hTok

theorem appendToLastMessageS_persistence (v now : String) (s : ChatState)
    (hCur : s.currentThreadId ≠ "") (hTok : s.userToken ≠ "")
    (hTh : s.threads ≠ []) (hMsgs : s.messages ≠ []) :
    (∀ t ∈ (appendToLastMessageS v now s).threads,
      t.id = s.currentThreadId →
        some t.lastMessage = lastText (appendToLastMessageS v now s) ∧
        t.lastUpdated = now) ∧
    (appendToLastMessageS v now s).persistedThreads =
      (appendToLastMessageS v now s).threads ∧
    (appendToLastMessageS v now s).persistedMessages =
      (appendToLastMessageS v now s).messages := by
  cases hl : s.messages.getLast? with
  | none => exact absurd (List.getLast?_eq_none_iff.mp hl) hMsgs
  | some last =>
    have hltxt : lastText (appendToLastMessageS v now s) =
        some (last.text ++ v) := by
      rw [lastText, appendToLastMessageS_messages v now s last hl]
      simp
    have hun : appendToLastMessageS v now s =
        setMessagesS (s.messages.dropLast ++ [{ last with text := last.text ++ v }])
          (updateThread s.currentThreadId
            (s.messages.dropLast ++ [{ last with text := last.text ++ v }])
            (last.text ++ v) now s) := by
      unfold appendToLastMessageS
      rw [hl]
    rw [hltxt, hun]
    refine ⟨?_, ?_, ?_⟩
    · rw [setMessagesS_threads]
      intro t ht htid
      exact (updateThread_lastFields _ _ _ _ _ t ht htid).imp
        (fun h => by rw [h]) id
    · rw [setMessagesS_threads, setMessagesS_persistedThreads]
      exact updateThread_persistedThreads _ _ _ _ _ hTh hTok
    · rw [setMessagesS_messages, setMessagesS_persistedMessages]
      · rw [updateThread_currentThreadId]
        exact hCur
      · rw [updateThread_userToken]
        exact hTok

theorem annotateLastMessageS_threads (annots : List Annot) (s : ChatState) :
    (annotateLastMessageS annots s).threads = s.threads := by
  cases hl : s.messages.getLast? with
  | none =>
    unfold annotateLastMessageS
    rw [hl]
  | some last =>
    unfold annotateLastMessageS
    rw [hl]
    exact setMessagesS_threads _ _

theorem annotateLastMessageS_persistedMessages (annots : List Annot)
    (s : ChatState) (hCur : s.currentThreadId ≠ "") (hTok : s.userToken ≠ "")
    (hMsgs : s.messages ≠ []) :
    (annotateLastMessageS annots s).persistedMessages =
      (annotateLastMessageS annots s).messages := by
  cases hl : s.messages.getLast? with
  | none => exact absurd (List.getLast?_eq_none_iff.mp hl) hMsgs
  | some last =>
    unfold annotateLastMessageS
    rw [hl, setMessagesS_messages, setMessagesS_persistedMessages _ _ hCur hTok]

end Needpedia

namespace Needpedia

/-- Claim C4 (amended): the two append mutations of the Stream Reconciler
update the owning thread's cached `lastMessage`/`lastUpdated` and trigger
the local persistence writes (thread list and message list), but the
annotate mutation does not: it leaves the thread list — hence the cached
`lastMessage`/`lastUpdated` — untouched, persisting only the rewritten
message list. -/
theorem reconcilerMutations_persistence (s : ChatState) (role : MessageRole)
    (txt v now : String) (annots : List Annot)
    (hCur : s.currentThreadId ≠ "") (hTok : s.userToken ≠ "")
    (hTh : s.threads ≠ []) (hMsgs : s.messages ≠ []) :
    ((∀ t ∈ (appendMessageS role txt now s).threads,
        t.id = s.currentThreadId →
          t.lastMessage = txt ∧ t.lastUpdated = now) ∧
      (appendMessageS role txt now s).persistedThreads =
        (appendMessageS role txt now s).threads ∧
      (appendMessageS role txt now s).persistedMessages =
        (appendMessageS role txt now s).messages) ∧
    ((∀ t ∈ (appendToLastMessageS v now s).threads,
        t.id = s.currentThreadId →
          some t.lastMessage = lastText (appendToLastMessageS v now s) ∧
          t.lastUpdated = now) ∧
      (appendToLastMessageS v now s).persistedThreads =
        (appendToLastMessageS v now s).threads ∧
      (appendToLastMessageS v now s).persistedMessages =
        (appendToLastMessageS v now s).messages) ∧
    ((annotateLastMessageS annots s).threads = s.threads ∧
      (annotateLastMessageS annots s).persistedMessages =
        (annotateLastMessageS annots s).messages) :=
  ⟨appendMessageS_persistence role txt now s hCur hTok hTh,
    appendToLastMessageS_persistence v now s hCur hTok hTh hMsgs,
    annotateLastMessageS_threads annots s,
    annotateLastMessageS_persistedMessages annots s hCur hTok hMsgs⟩

/-- Witness for C4 on the concrete sample state. -/
theorem reconcilerMutations_persistence_witness :
    ((∀ t ∈ (appendMessageS .user "q" "D2" sampleState).threads,
        t.id = sampleState.currentThreadId →
          t.lastMessage = "q" ∧ t.lastUpdated = "D2") ∧
      (appendMessageS .user "q" "D2" sampleState).persistedThreads =
        (appendMessageS .user "q" "D2" sampleState).threads ∧
      (appendMessageS .user "q" "D2" sampleState).persistedMessages =
        (appendMessageS .user "q" "D2" sampleState).messages) ∧
    ((∀ t ∈ (appendToLastMessageS "z" "D2" sampleState).threads,
        t.id = sampleState.currentThreadId →
          some t.lastMessage = lastText (appendToLastMessageS "z" "D2" sampleState) ∧
          t.lastUpdated = "D2") ∧
      (appendToLastMessageS "z" "D2" sampleState).persistedThreads =
        (appendToLastMessageS "z" "D2" sampleState).threads ∧
      (appendToLastMessageS "z" "D2" sampleState).persistedMessages =
        (appendToLastMessageS "z" "D2" sampleState).messages) ∧
    ((annotateLastMessageS [sampleAnnot] sampleState).threads =
        sampleState.threads ∧
      (annotateLastMessageS [sampleAnnot] sampleState).persistedMessages =
        (annotateLastMessageS [sampleAnnot] sampleState).messages) :=
  reconcilerMutations_persistence sampleState .user "q" "z" "D2" [sampleAnnot]
    (by decide) (by decide) (by decide) (by decide)

/-- Counterexample to C4 as stated: annotating the last message of
`sampleState` rewrites the message list (so it is a message-list mutation)
yet leaves every thread — in particular the owning thread's cached
`lastMessage`/`lastUpdated` — exactly as it was. -/
theorem annotate_skips_thread_update_cex :
    (annotateLastMessageS [sampleAnnot] sampleState).messages ≠
      sampleState.messages ∧
    (annotateLastMessageS [sampleAnnot] sampleState).threads =
      sampleState.threads := by
  decide

/-- Claim C6: a `tool-call-delta` whose kind is not `code_interpreter`, or
which lacks an input, changes nothing: the state (in particular the
message list) is returned unchanged. -/
theorem toolCallDelta_other_kind_noop (d : ToolCallDelta) (now : String)
    (s : ChatState) (h : d.type ≠ "code_interpreter" ∨ d.input = none) :
    toolCallDeltaS d now s = s := by
  rcases h with h | h
  · simp [toolCallDeltaS, h]
  · by_cases ht : d.type = "code_interpreter"
    · simp [toolCallDeltaS, ht, h]
    · simp [toolCallDeltaS, ht]

/-- Witness for C6 on a `function`-kind tool-call delta. -/
theorem toolCallDelta_other_kind_noop_witness :
    toolCallDeltaS { type := "function", input := some "x" } "D2" sampleState =
      sampleState :=
  toolCallDelta_other_kind_noop { type := "function", input := some "x" }
    "D2" sampleState (Or.inl (by decide))

/-- Threads are never modified by switching. -/
theorem switchThread_threads (tid : String) (s : ChatState) :
    (switchThread tid s).threads = s.threads := by
  cases hf : s.threads.find? (fun t => t.id == tid) with
  | none =>
    unfold switchThread
    rw [hf]
  | some t =>
    unfold switchThread
    rw [hf]
    exact setMessagesS_threads _ _

/-- Switching to a thread present in the list displays its stored
message list. -/
theorem switchThread_messages_of_found (tid : String) (s : ChatState)
    (t : Thread) (h : s.threads.find? (fun u => u.id == tid) = some t) :
    (switchThread tid s).messages = t.messages := by
  unfold switchThread
  rw [h]
  exact setMessagesS_messages _ _

/-- Claim C7: for two threads T1 and T2 present in the thread list,
switching from T1 to T2 and back displays exactly T1's stored message
list again — and since switching never edits the thread list, that list
is byte-for-byte what it was before switching away. -/
theorem switchThread_roundtrip (s : ChatState) (tid1 tid2 : String)
    (t1 t2 : Thread)
    (h1 : s.threads.find? (fun t => t.id == tid1) = some t1)
    (_h2 : s.threads.find? (fun t => t.id == tid2) = some t2) :
    (switchThread tid1 (switchThread tid2 s)).messages = t1.messages := by
  have h1b : (switchThread tid2 s).threads.find? (fun t => t.id == tid1) =
      some t1 := by
    rw [switchThread_threads]
    exact h1
  exact switchThread_messages_of_found tid1 (switchThread tid2 s) t1 h1b

/-- Witness for C7 on the concrete two-thread sample state. -/
theorem switchThread_roundtrip_witness :
    (switchThread "t1" (switchThread "t2" sampleState)).messages =
      sampleThread.messages :=
  switchThread_roundtrip sampleState "t1" "t2" sampleThread sampleThread2
    (by decide) (by decide)

/-- The batched handler invocations and collected outputs of the
`Promise.all` in `handleRequiresAction`, in closed form. -/
theorem runToolCalls_eq (handler : ToolCall → String) (tcs : List ToolCall) :
    runToolCalls handler tcs =
      (tcs.map SideEffect.handlerCall,
        tcs.map fun tc => { output := handler tc, tool_call_id := tc.id }) := by
  induction tcs with
  | nil => rfl
  | cons tc rest ih => simp [runToolCalls, ih]

/-- Claim C5: on a requires-action event the external function-call
handler is invoked exactly once per tool call of the batch (in batch
order), the input control is disabled, and the single submission back to
the provider is the final effect, carrying the collected
output/tool-call-id pair of every tool call — no submission happens
before the batch is complete. -/
theorem requiresAction_batch (handler : ToolCall → String) (runId : String)
    (toolCalls : List ToolCall) :
    (handleRequiresAction handler runId toolCalls).filterMap
        SideEffect.handlerTarget = toolCalls ∧
    SideEffect.inputDisabledSet true ∈
      handleRequiresAction handler runId toolCalls ∧
    (handleRequiresAction handler runId toolCalls).getLast? =
      some (.actionSubmit runId
        (toolCalls.map fun tc => { output := handler tc, tool_call_id := tc.id })) ∧
    ∀ e ∈ (handleRequiresAction handler runId toolCalls).dropLast,
      e.isSubmit = false := by
  unfold handleRequiresAction
  rw [runToolCalls_eq]
  have hsplit : toolCalls.map SideEffect.handlerCall ++
      [SideEffect.inputDisabledSet true,
        SideEffect.actionSubmit runId
          (toolCalls.map fun tc => { output := handler tc, tool_call_id := tc.id })] =
      (toolCalls.map SideEffect.handlerCall ++ [SideEffect.inputDisabledSet true]) ++
        [SideEffect.actionSubmit runId
          (toolCalls.map fun tc => { output := handler tc, tool_call_id := tc.id })] := by
    simp
  refine ⟨?_, ?_, ?_, ?_⟩
  · rw [List.filterMap_append, List.filterMap_map]
    have hcomp : (SideEffect.handlerTarget ∘ SideEffect.handlerCall) =
        fun tc => some tc := rfl
    rw [hcomp]
    simp [SideEffect.handlerTarget]
  · simp
  · rw [hsplit]
    simp
  · rw [hsplit, List.dropLast_concat]
    intro e he
    rcases List.mem_append.mp he with h | h
    · obtain ⟨tc, _, rfl⟩ := List.mem_map.mp h
      rfl
    · rw [List.mem_singleton.mp h]
      rfl

/-- Claim C8: the `TransformStream` in `sendMessage` forwards every chunk
downstream unmodified, whatever `JSON.parse` does with it — a chunk that
fails to parse is caught and enqueued as-is. -/
theorem transformChunk_forwards (parse : String → Option ParsedChunk)
    (chunk : String) (tokensGlobal : Option Nat) :
    (transformChunk parse chunk tokensGlobal).1 = [chunk] := by
  unfold transformChunk
  cases hp : parse chunk with
  | none => rfl
  | some p => rfl

end Needpedia
